import Mathlib

/-!
Shallow embedding of the console core of the Arianna-Method-Linux
repository: the streaming shell runner `run_command` and the log/history
searchers `summarize` / `search_history` from `letsgo.py`, and the
persistent oracle subprocess `LetsGoProcess` from `bridge.py`.

External effects (the OS process, the clock, the regular-expression
engine, the file system) are passed in as explicit data, so every
definition is executable and every property decidable on concrete inputs.
-/

namespace Arianna

/-- Python whitespace (the ASCII characters recognised by `str.strip` and
`str.rstrip` with no argument). -/
def isPyWs (c : Char) : Bool :=
  c = ' ' || c = '\t' || c = '\n' || c = '\r' || c = '\x0b' || c = '\x0c'

/-- Python `str.rstrip()`: remove trailing whitespace. -/
def pyRstrip (s : String) : String :=
  String.mk ((s.data.reverse.dropWhile isPyWs).reverse)

/-- Python `str.strip()`: remove leading and trailing whitespace. -/
def pyStrip (s : String) : String :=
  String.mk (((s.data.dropWhile isPyWs).reverse.dropWhile isPyWs).reverse)

/-- `listStarts p s` is true when `p` is an initial segment of `s`. -/
def listStarts : List Char → List Char → Bool
  | [], _ => true
  | _ :: _, [] => false
  | a :: as, b :: bs => a == b && listStarts as bs

/-- Python `s.startswith(p)`. -/
def pyStarts (s p : String) : Bool := listStarts p.data s.data

/-- Python `s[n:]`: drop the first `n` characters. -/
def pyDrop (s : String) (n : Nat) : String := String.mk (s.data.drop n)

/-- The color scheme of `letsgo.py` (class `ColorScheme`), with its
default ANSI codes. -/
structure ColorScheme where
  prompt : String := "\x1b[36m"
  success : String := "\x1b[32m"
  error : String := "\x1b[31m"
  reset : String := "\x1b[0m"
deriving DecidableEq

/-- `getattr(COLOR_SCHEME, key, key)`: look a key up in the scheme,
falling back to the key itself. -/
def schemeGet (cs : ColorScheme) (key : String) : String :=
  if key = "prompt" then cs.prompt
  else if key = "success" then cs.success
  else if key = "error" then cs.error
  else if key = "reset" then cs.reset
  else key

/-- `letsgo.color(text, key)`: wrap `text` in the scheme's code for `key`
when color is enabled and the code is non-empty (Python truthiness of the
code string), else return `text` unchanged. -/
def color (useColor : Bool) (cs : ColorScheme) (text key : String) : String :=
  if useColor ∧ schemeGet cs key ≠ "" then
    schemeGet cs key ++ text ++ cs.reset
  else text

/-- The default color scheme value. -/
def csDflt : ColorScheme := {}

/-- One observable action of the read loop of `run_command`: a line being
appended to `output_lines`, or the `on_line` callback being invoked with
a line. -/
inductive Ev where
  | append (line : String)
  | callback (line : String)
deriving DecidableEq

/-- The behaviour of one spawned OS process, as `run_command` observes it:
each output line tagged with its arrival time (seconds since spawn), the
time at which `readline` returns end-of-stream, and the exit status. -/
structure ProcBehavior where
  timedLines : List (Nat × String)
  eofAt : Nat
  exitCode : Int
deriving DecidableEq

/-- Result of the read loop of `run_command`: either the deadline elapsed
(`proc.kill()` was called) or end-of-stream was reached; both carry the
accumulated `output_lines` and the trace of append/callback actions. -/
inductive LoopOut where
  | timedOut (out : List String) (tr : List Ev)
  | finished (out : List String) (tr : List Ev)
deriving DecidableEq

/-- The accumulated `output_lines` of a loop result. -/
def LoopOut.outLines : LoopOut → List String
  | .timedOut out _ => out
  | .finished out _ => out

/-- The action trace of a loop result. -/
def LoopOut.trace : LoopOut → List Ev
  | .timedOut _ tr => tr
  | .finished _ tr => tr

/-- The hard-coded 10-second deadline of `run_command`. -/
def TIMEOUT : Nat := 10

/-- The `while True` read loop of `run_command` (letsgo.py lines 198-217).
`now` is the current value of `loop.time() - start`.  Before each read the
loop checks `remaining = 10 - now <= 0`; a line arriving after the
deadline makes `asyncio.wait_for` raise `TimeoutError`; both paths kill
the process and report `timedOut`.  An accepted line is decoded,
right-stripped, appended to `output_lines` and, when a callback is
installed, passed to it (in that order). -/
def runLoop (hasCb : Bool) (eofAt : Nat) :
    Nat → List String → List Ev → List (Nat × String) → LoopOut
  | now, acc, tr, [] =>
    if TIMEOUT ≤ now then LoopOut.timedOut acc tr
    else if TIMEOUT < eofAt then LoopOut.timedOut acc tr
    else LoopOut.finished acc tr
  | now, acc, tr, (t, raw) :: rest =>
    if TIMEOUT ≤ now then LoopOut.timedOut acc tr
    else if TIMEOUT < t then LoopOut.timedOut acc tr
    else runLoop hasCb eofAt t (acc ++ [pyRstrip raw])
      (tr ++ (if hasCb then [Ev.append (pyRstrip raw), Ev.callback (pyRstrip raw)]
              else [Ev.append (pyRstrip raw)])) rest

/-- What `run_command` hands back: the returned string, the trace of
append/callback actions that happened during the run, and whether
`proc.kill()` was invoked. -/
structure RunRes where
  text : String
  trace : List Ev
  killed : Bool
deriving DecidableEq

/-- The outcome of `asyncio.create_subprocess_shell`: either a process
with an observable behaviour, or an exception with message `msg`. -/
inductive Spawn where
  | ok (b : ProcBehavior)
  | fail (msg : String)
deriving DecidableEq

/-- The tail of `run_command` after the read loop (letsgo.py lines
198-222): a timed-out loop returns the fixed error-colored message; a
finished loop joins `output_lines`, strips the join, and colors it iff
the exit status is non-zero. -/
def finishRun (useColor : Bool) (cs : ColorScheme) : LoopOut → Int → Except String RunRes
  | LoopOut.timedOut _ tr, _ =>
    Except.ok ⟨color useColor cs "command timed out" "error", tr, true⟩
  | LoopOut.finished out tr, rc =>
    if rc ≠ 0 then
      Except.ok ⟨color useColor cs (pyStrip (String.intercalate "\n" out)) "error", tr, false⟩
    else Except.ok ⟨pyStrip (String.intercalate "\n" out), tr, false⟩

/-- `letsgo.run_command` (letsgo.py lines 180-224).  The whole body sits
in a `try`/`except Exception` whose handler returns the colored exception
text, so the function never raises: the `Except` codomain records that no
`.error` is ever produced.  `hasCb` states whether an `on_line` callback
was supplied. -/
def run_command (useColor : Bool) (cs : ColorScheme) (hasCb : Bool) :
    Spawn → Except String RunRes
  | Spawn.fail msg => Except.ok ⟨color useColor cs msg "error", [], false⟩
  | Spawn.ok b => finishRun useColor cs (runLoop hasCb b.eofAt 0 [] [] b.timedLines) b.exitCode

/-- The lines delivered to the `on_line` callback, in order. -/
def sinkLines : List Ev → List String
  | [] => []
  | Ev.callback s :: r => s :: sinkLines r
  | Ev.append _ :: r => sinkLines r

/-- The lines appended to `output_lines`, in order. -/
def bufLines : List Ev → List String
  | [] => []
  | Ev.append s :: r => s :: bufLines r
  | Ev.callback _ :: r => bufLines r

/-- The trace produced when every line is appended first and then passed
to the callback. -/
def pairTrace : List String → List Ev
  | [] => []
  | d :: rest => Ev.append d :: Ev.callback d :: pairTrace rest

/-- The raw combined stdout+stderr text a process wrote (concatenation of
its raw lines). -/
def rawText (b : ProcBehavior) : String :=
  String.join (b.timedLines.map (fun e => e.2))

/-- The host shell spawned on an empty command string: it writes nothing,
closes its stream at once and exits with status 0 (environmental
behaviour of `sh -c ''`). -/
def emptyShellBehavior : ProcBehavior := ⟨[], 0, 0⟩

/-- The sentinel line of `bridge.py`. -/
def PROMPT : String := ">>"

/-- The inline prompt-echo handling of `LetsGoProcess.run` (bridge.py
lines 58-59): a line starting with `">> "` has that three-character
prelude removed; every other line is kept verbatim. -/
def stripPromptEcho (text : String) : String :=
  if pyStarts text (PROMPT ++ " ") then pyDrop text (PROMPT.length + 1) else text

/-- The read loop of `LetsGoProcess.run` (bridge.py lines 50-61): read
lines until end-of-stream or a line whose strip equals the sentinel; on
either stop, return the accumulated lines concatenated and stripped. -/
def readReply : List String → List String → String
  | [], lines => pyStrip (String.join lines)
  | l :: rest, lines =>
    if pyStrip l = PROMPT then pyStrip (String.join lines)
    else readReply rest (lines ++ [stripPromptEcho l])

/-- What one `LetsGoProcess.run` call does: the bytes written to the
subprocess's input, and the reply string returned. -/
structure SendOk where
  written : String
  reply : String
deriving DecidableEq

/-- The observable state of the oracle pipe at the moment `run` is
called: `self.proc` is still `None`, or the subprocess exists and its
output stream will deliver the given lines before closing. -/
inductive PipeState where
  | notStarted
  | started (outLines : List String)
deriving DecidableEq

/-- `bridge.LetsGoProcess.run` (bridge.py lines 44-61): raise
`RuntimeError("process not started")` when `self.proc` is `None`;
otherwise write the command plus a line terminator, drain, and run the
read loop. -/
def LetsGoProcess.run (cmd : String) : PipeState → Except String SendOk
  | PipeState.notStarted => Except.error "process not started"
  | PipeState.started ls => Except.ok ⟨cmd ++ "\n", readReply ls []⟩

/-- Spec-side description of `send` (spec §4.4): keep the lines strictly
before the first sentinel line, strip the sentinel-plus-separator prelude
where present, keep the rest verbatim, and join and trim the result. -/
def sendReplySpec (ls : List String) : String :=
  pyStrip (String.join ((ls.takeWhile (fun l => pyStrip l ≠ PROMPT)).map stripPromptEcho))

/-- Python `line.rstrip("\n")` as applied to history/log file lines:
remove trailing newline characters only. -/
def stripNl (s : String) : String :=
  String.mk ((s.data.reverse.dropWhile (fun c => c == '\n')).reverse)

/-- The last `n` elements of a list (`collections.deque(.., maxlen=n)`
retains exactly these). -/
def lastN (n : Nat) (l : List String) : List String := l.drop (l.length - n)

/-- The pattern-dependent tail of `letsgo.summarize` (letsgo.py lines
271-279), operating on the lines already gathered.  `term` models
`re.compile(term) if term else None` together with its `re.error` path:
`none` means no term was given, `some none` means `re.compile` raised
`re.error`, and `some (some r)` is a compiled pattern whose `search` is
the predicate `r`. -/
def summarizeScan (lines : List String)
    (term : Option (Option (String → Bool))) (limit : Nat) : String :=
  match term with
  | some none => "invalid pattern"
  | some (some r) =>
    let ms := lastN limit (lines.filter r)
    if ms.isEmpty then "no matches" else String.intercalate "\n" ms
  | none =>
    let ms := lastN limit lines
    if ms.isEmpty then "no matches" else String.intercalate "\n" ms

/-- `letsgo.summarize` (letsgo.py lines 250-279).  `histFile` is the
content of `HISTORY_PATH` (`none` when opening raises
`FileNotFoundError`); `logDirExists` and `logLines` describe the log
directory and the lines `_iter_log_lines` yields. -/
def summarize (histMode : Bool) (histFile : Option (List String))
    (logDirExists : Bool) (logLines : List String)
    (term : Option (Option (String → Bool))) (limit : Nat) : String :=
  match histMode, histFile with
  | true, none => "no history"
  | true, some fl => summarizeScan (fl.map stripNl) term limit
  | false, _ =>
    if logDirExists then summarizeScan logLines term limit else "no logs"

/-- `letsgo.search_history` (letsgo.py lines 282-294).  `histFile` is the
content of `HISTORY_PATH` (`none` when missing); `regex` models
`re.compile(pattern)`: `none` when it raises `re.error`, else the
compiled pattern's `search` predicate. -/
def search_history (histFile : Option (List String))
    (regex : Option (String → Bool)) : String :=
  match histFile with
  | none => "no history"
  | some raw =>
    let lines := raw.map stripNl
    match regex with
    | none => "invalid pattern"
    | some r =>
      let ms := lines.filter r
      if ms.isEmpty then "no matches" else String.intercalate "\n" ms

/-! Helper lemmas about the read loop. -/

/-- A finished loop has consumed every line: `output_lines` is the initial
accumulator followed by every raw line right-stripped. -/
theorem runLoop_finished_lines (hasCb : Bool) (eofAt : Nat) :
    ∀ (evs : List (Nat × String)) (now : Nat) (acc : List String) (tr : List Ev)
      (out : List String) (tr' : List Ev),
      runLoop hasCb eofAt now acc tr evs = LoopOut.finished out tr' →
      out = acc ++ evs.map (fun e => pyRstrip e.2) := by
  intro evs
  induction evs with
  | nil =>
    intro now acc tr out tr' h
    simp only [runLoop] at h
    split_ifs at h
    simp_all
  | cons ev rest ih =>
    intro now acc tr out tr' h
    obtain ⟨t, raw⟩ := ev
    simp only [runLoop] at h
    by_cases h1 : TIMEOUT ≤ now
    · rw [if_pos h1] at h; cases h
    · rw [if_neg h1] at h
      by_cases h2 : TIMEOUT < t
      · rw [if_pos h2] at h; cases h
      · rw [if_neg h2] at h
        have := ih t (acc ++ [pyRstrip raw]) _ out tr' h
        simpa [List.append_assoc] using this

/-- `pairTrace` distributes over append. -/
theorem pairTrace_append (l₁ l₂ : List String) :
    pairTrace (l₁ ++ l₂) = pairTrace l₁ ++ pairTrace l₂ := by
  induction l₁ with
  | nil => simp [pairTrace]
  | cons d rest ih => simp [pairTrace, ih]

/-- With a callback installed, the loop's trace is always the
append-then-callback pairing of its `output_lines`. -/
theorem runLoop_trace_pair (eofAt : Nat) :
    ∀ (evs : List (Nat × String)) (now : Nat) (acc : List String),
      (runLoop true eofAt now acc (pairTrace acc) evs).trace
        = pairTrace ((runLoop true eofAt now acc (pairTrace acc) evs).outLines) := by
  intro evs
  induction evs with
  | nil =>
    intro now acc
    simp only [runLoop]
    split
    · rfl
    · split <;> rfl
  | cons ev rest ih =>
    intro now acc
    obtain ⟨t, raw⟩ := ev
    simp only [runLoop, if_true]
    split
    · rfl
    · split
      · rfl
      · have hp : pairTrace acc ++ [Ev.append (pyRstrip raw), Ev.callback (pyRstrip raw)]
            = pairTrace (acc ++ [pyRstrip raw]) := by
          rw [pairTrace_append]; rfl
        rw [hp]
        exact ih t (acc ++ [pyRstrip raw])

/-- Specialisation of `runLoop_trace_pair` to the loop as `run_command`
starts it. -/
theorem runLoop_finished_trace (eofAt : Nat) (evs : List (Nat × String))
    (out : List String) (tr : List Ev)
    (h : runLoop true eofAt 0 [] [] evs = LoopOut.finished out tr) :
    tr = pairTrace out := by
  have hgen := runLoop_trace_pair eofAt evs 0 []
  rw [show pairTrace [] = [] from rfl] at hgen
  rw [h] at hgen
  simpa [LoopOut.trace, LoopOut.outLines] using hgen

/-- The callback receives exactly the paired lines. -/
theorem sinkLines_pairTrace (out : List String) : sinkLines (pairTrace out) = out := by
  induction out with
  | nil => rfl
  | cons d rest ih => simp [pairTrace, sinkLines, ih]

/-- The buffer receives exactly the paired lines. -/
theorem bufLines_pairTrace (out : List String) : bufLines (pairTrace out) = out := by
  induction out with
  | nil => rfl
  | cons d rest ih => simp [pairTrace, bufLines, ih]

/-- `run_command` never raises: every input yields an `Except.ok` result
(the body's `try`/`except Exception` returns in the handler). -/
theorem run_command_total (useColor : Bool) (cs : ColorScheme) (hasCb : Bool)
    (sp : Spawn) : ∃ r, run_command useColor cs hasCb sp = Except.ok r := by
  cases sp with
  | fail msg => exact ⟨_, rfl⟩
  | ok b =>
    cases hr : runLoop hasCb b.eofAt 0 [] [] b.timedLines with
    | timedOut out tr =>
      exact ⟨⟨color useColor cs "command timed out" "error", tr, true⟩, by
        simp only [run_command, hr, finishRun]⟩
    | finished out tr =>
      by_cases hc : b.exitCode = 0
      · exact ⟨⟨pyStrip (String.intercalate "\n" out), tr, false⟩, by
          simp only [run_command, hr, finishRun]
          rw [if_neg (by simp [hc])]⟩
      · exact ⟨⟨color useColor cs (pyStrip (String.intercalate "\n" out)) "error", tr, false⟩, by
          simp only [run_command, hr, finishRun]
          rw [if_pos hc]⟩

/-! Helper lemmas about the oracle read loop. -/

/-- When no line of the stream strips to the sentinel, the read loop
consumes the whole stream. -/
theorem readReply_no_sentinel :
    ∀ (ls acc : List String), (∀ l ∈ ls, pyStrip l ≠ PROMPT) →
      readReply ls acc = pyStrip (String.join (acc ++ ls.map stripPromptEcho)) := by
  intro ls
  induction ls with
  | nil => intro acc _; simp [readReply]
  | cons l rest ih =>
    intro acc h
    have hl : pyStrip l ≠ PROMPT := h l (by simp)
    simp only [readReply]
    rw [if_neg hl, ih (acc ++ [stripPromptEcho l]) (fun x hx => h x (by simp [hx]))]
    simp

/-- The read loop computes the take-until-sentinel description. -/
theorem readReply_takeWhile :
    ∀ (ls acc : List String),
      readReply ls acc
        = pyStrip (String.join
            (acc ++ (ls.takeWhile (fun l => pyStrip l ≠ PROMPT)).map stripPromptEcho)) := by
  intro ls
  induction ls with
  | nil => intro acc; simp [readReply]
  | cons l rest ih =>
    intro acc
    by_cases hl : pyStrip l = PROMPT
    · simp [readReply, hl, List.takeWhile_cons]
    · simp only [readReply, List.takeWhile_cons]
      rw [if_neg hl, ih (acc ++ [stripPromptEcho l])]
      simp [hl]

/-! Claim theorems. -/

/-- C1 counterexample: the claim says a run whose deadline elapses
returns whatever output lines were captured before the deadline.  On the
behaviour that writes "hello" at time 0 and keeps its stream open past
the deadline, `run_command` kills the process but returns the fixed
string "command timed out"; the captured line "hello" is not returned. -/
theorem c1_counterexample :
    run_command false csDflt true (Spawn.ok ⟨[(0, "hello\n")], 20, 0⟩)
      = Except.ok ⟨"command timed out", [Ev.append "hello", Ev.callback "hello"], true⟩
    ∧ ("command timed out" : String) ≠ "hello" :=
  ⟨rfl, by decide⟩

/-- C1 amended: whenever the read loop hits the deadline, `run_command`
kills the process (`killed = true`) and returns the fixed error-colored
string "command timed out"; the lines captured before the deadline are
dropped from the returned text. -/
theorem c1_amended (useColor : Bool) (cs : ColorScheme) (hasCb : Bool) (b : ProcBehavior)
    (out : List String) (tr : List Ev)
    (h : runLoop hasCb b.eofAt 0 [] [] b.timedLines = LoopOut.timedOut out tr) :
    run_command useColor cs hasCb (Spawn.ok b)
      = Except.ok ⟨color useColor cs "command timed out" "error", tr, true⟩ := by
  simp only [run_command, h, finishRun]

/-- C1 witness: the amended theorem applied to a process that writes
nothing and whose stream stays open past the deadline. -/
theorem c1_amended_witness :
    run_command false csDflt true (Spawn.ok ⟨[], 20, 0⟩)
      = Except.ok ⟨color false csDflt "command timed out" "error", [], true⟩ :=
  c1_amended false csDflt true ⟨[], 20, 0⟩ [] [] rfl

/-- C2 counterexample: the claim says the returned text equals the
newline-join of the lines delivered to the sink even when the run ends by
timeout.  On a run that delivers "midway" to the sink and then times out,
the returned text is "command timed out", not "midway". -/
theorem c2_counterexample :
    run_command false csDflt true (Spawn.ok ⟨[(0, "midway\n")], 30, 0⟩)
      = Except.ok ⟨"command timed out", [Ev.append "midway", Ev.callback "midway"], true⟩
    ∧ String.intercalate "\n" (sinkLines [Ev.append "midway", Ev.callback "midway"]) = "midway"
    ∧ ("command timed out" : String) ≠ "midway" :=
  ⟨rfl, rfl, by decide⟩

/-- C2 amended: for runs that finish (end-of-stream within the deadline)
with exit status 0, the returned text equals the newline-join of exactly
the lines delivered to the sink, up to one final whitespace strip; under
timeout the fixed message replaces it, and under non-zero exit the same
text is additionally error-colored. -/
theorem c2_amended (useColor : Bool) (cs : ColorScheme) (b : ProcBehavior)
    (out : List String) (tr : List Ev)
    (h : runLoop true b.eofAt 0 [] [] b.timedLines = LoopOut.finished out tr)
    (hrc : b.exitCode = 0) :
    run_command useColor cs true (Spawn.ok b)
      = Except.ok ⟨pyStrip (String.intercalate "\n" (sinkLines tr)), tr, false⟩ := by
  have htr : tr = pairTrace out := runLoop_finished_trace b.eofAt b.timedLines out tr h
  simp only [run_command, h, finishRun]
  rw [if_neg (by simp [hrc])]
  rw [htr, sinkLines_pairTrace]

/-- C2 witness: the amended theorem applied to a two-line run that exits
with status 0 within the deadline. -/
theorem c2_amended_witness :
    run_command false csDflt true (Spawn.ok ⟨[(0, "a\n"), (1, "b\n")], 2, 0⟩)
      = Except.ok ⟨pyStrip (String.intercalate "\n"
          (sinkLines [Ev.append "a", Ev.callback "a", Ev.append "b", Ev.callback "b"])),
          [Ev.append "a", Ev.callback "a", Ev.append "b", Ev.callback "b"], false⟩ :=
  c2_amended false csDflt ⟨[(0, "a\n"), (1, "b\n")], 2, 0⟩ ["a", "b"]
    [Ev.append "a", Ev.callback "a", Ev.append "b", Ev.callback "b"] rfl rfl

/-- C3 counterexample: the claim says a send whose output stream closes
before the sentinel reappears fails with a "process not running"
condition.  On a stream that delivers "boom" and then closes with no
sentinel, `run` returns the normal reply "boom" instead of failing. -/
theorem c3_counterexample :
    LetsGoProcess.run "ls" (PipeState.started ["boom\n"])
      = Except.ok ⟨"ls\n", "boom"⟩ := rfl

/-- C3 amended: a send on a never-started pipe raises
`RuntimeError("process not started")`; but when the output stream closes
before the sentinel reappears (e.g. the subprocess died), `run` does not
fail — it returns the accumulated prompt-echo-stripped lines, joined and
trimmed, as a normal reply. -/
theorem c3_amended (cmd : String) (ls : List String)
    (h : ∀ l ∈ ls, pyStrip l ≠ PROMPT) :
    LetsGoProcess.run cmd PipeState.notStarted = Except.error "process not started"
    ∧ LetsGoProcess.run cmd (PipeState.started ls)
        = Except.ok ⟨cmd ++ "\n", pyStrip (String.join (ls.map stripPromptEcho))⟩ := by
  refine ⟨rfl, ?_⟩
  simp only [LetsGoProcess.run]
  rw [readReply_no_sentinel ls [] h]
  simp

/-- C3 witness: the amended theorem applied to a stream that echoes the
command and one output line, then closes without a sentinel. -/
theorem c3_amended_witness :
    LetsGoProcess.run "echo hi" PipeState.notStarted = Except.error "process not started"
    ∧ LetsGoProcess.run "echo hi" (PipeState.started [">> echo hi\n", "hi\n"])
        = Except.ok ⟨"echo hi\n",
            pyStrip (String.join ([">> echo hi\n", "hi\n"].map stripPromptEcho))⟩ :=
  c3_amended "echo hi" [">> echo hi\n", "hi\n"] (by decide)

/-- C4 counterexample: the claim says a spawn failure surfaces as a
raised error.  The body's `except Exception` handler instead returns the
(error-colored) exception text as a normal result: with color disabled,
the call returns the plain string of the exception. -/
theorem c4_counterexample :
    run_command false csDflt false (Spawn.fail "No such file or directory")
      = Except.ok ⟨"No such file or directory", [], false⟩ := rfl

/-- C4 amended: on spawn failure `run_command` does not raise; it catches
the exception and returns its error-colored text as a normal result, and
in fact `run_command` returns a normal result on every input. -/
theorem c4_amended (useColor : Bool) (cs : ColorScheme) (hasCb : Bool) (msg : String) :
    run_command useColor cs hasCb (Spawn.fail msg)
      = Except.ok ⟨color useColor cs msg "error", [], false⟩
    ∧ ∀ sp : Spawn, ∃ r, run_command useColor cs hasCb sp = Except.ok r :=
  ⟨rfl, fun sp => run_command_total useColor cs hasCb sp⟩

/-- C5 counterexample: the claim says the result of a non-zero exit
carries the exit code as data.  Two runs identical except for their exit
codes (2 and 3) produce identical results, so the result cannot carry the
exit code; it is only the error-colored output. -/
theorem c5_counterexample :
    run_command false csDflt false (Spawn.ok ⟨[(0, "oops\n")], 1, 2⟩)
      = run_command false csDflt false (Spawn.ok ⟨[(0, "oops\n")], 1, 3⟩)
    ∧ run_command false csDflt false (Spawn.ok ⟨[(0, "oops\n")], 1, 2⟩)
      = Except.ok ⟨"oops", [Ev.append "oops"], false⟩ :=
  ⟨rfl, rfl⟩

/-- C5 amended: a command that exits non-zero within the deadline does
not fail the call: `run_command` returns the captured output,
error-colored; the numeric exit code itself is not part of the result. -/
theorem c5_amended (useColor : Bool) (cs : ColorScheme) (hasCb : Bool) (b : ProcBehavior)
    (out : List String) (tr : List Ev)
    (h : runLoop hasCb b.eofAt 0 [] [] b.timedLines = LoopOut.finished out tr)
    (hrc : b.exitCode ≠ 0) :
    run_command useColor cs hasCb (Spawn.ok b)
      = Except.ok ⟨color useColor cs (pyStrip (String.intercalate "\n" out)) "error", tr, false⟩ := by
  simp only [run_command, h, finishRun]
  rw [if_pos hrc]

/-- C5 witness: the amended theorem applied to a run that writes "oops"
and exits with status 2. -/
theorem c5_amended_witness :
    run_command false csDflt false (Spawn.ok ⟨[(0, "oops\n")], 1, 2⟩)
      = Except.ok ⟨color false csDflt (pyStrip (String.intercalate "\n" ["oops"])) "error",
          [Ev.append "oops"], false⟩ :=
  c5_amended false csDflt false ⟨[(0, "oops\n")], 1, 2⟩ ["oops"] [Ev.append "oops"] rfl (by decide)

/-- C6 counterexample: the claim says the output on normal exit is the
captured combined text with a single trailing-whitespace trim.  A process
whose sole line is "  hi\n" has trailing-trimmed combined text "  hi",
but `run_command` returns "hi": each line is right-stripped and the join
is stripped on both ends, so leading whitespace is also removed. -/
theorem c6_counterexample :
    run_command false csDflt false (Spawn.ok ⟨[(0, "  hi\n")], 1, 0⟩)
      = Except.ok ⟨"hi", [Ev.append "  hi"], false⟩
    ∧ pyRstrip (rawText ⟨[(0, "  hi\n")], 1, 0⟩) = "  hi"
    ∧ ("hi" : String) ≠ "  hi" :=
  ⟨rfl, rfl, by decide⟩

/-- C6 amended: on normal exit within the deadline with status 0, the
output equals the process's lines each right-stripped of trailing
whitespace, joined with newlines, and then stripped of BOTH leading and
trailing whitespace — not a single trailing trim of the raw text. -/
theorem c6_amended (useColor : Bool) (cs : ColorScheme) (hasCb : Bool) (b : ProcBehavior)
    (out : List String) (tr : List Ev)
    (h : runLoop hasCb b.eofAt 0 [] [] b.timedLines = LoopOut.finished out tr)
    (hrc : b.exitCode = 0) :
    run_command useColor cs hasCb (Spawn.ok b)
      = Except.ok ⟨pyStrip (String.intercalate "\n"
          (b.timedLines.map (fun e => pyRstrip e.2))), tr, false⟩ := by
  have hout := runLoop_finished_lines hasCb b.eofAt b.timedLines 0 [] [] out tr h
  simp only [run_command, h, finishRun]
  rw [if_neg (by simp [hrc])]
  simp only [List.nil_append] at hout
  rw [hout]

/-- C6 witness: the amended theorem applied to the one-line run whose
line carries leading whitespace. -/
theorem c6_amended_witness :
    run_command false csDflt false (Spawn.ok ⟨[(0, "  hi\n")], 2, 0⟩)
      = Except.ok ⟨pyStrip (String.intercalate "\n"
          ([((0 : Nat), "  hi\n")].map (fun e => pyRstrip e.2))), [Ev.append "  hi"], false⟩ :=
  c6_amended false csDflt false ⟨[(0, "  hi\n")], 2, 0⟩ ["  hi"] [Ev.append "  hi"] rfl rfl

/-- C7 counterexample: the claim says each `on_line` invocation happens
before the line is appended to the buffer.  On a one-line run the trace
is append-then-callback, not callback-then-append. -/
theorem c7_counterexample :
    run_command false csDflt true (Spawn.ok ⟨[(0, "x\n")], 1, 0⟩)
      = Except.ok ⟨"x", [Ev.append "x", Ev.callback "x"], false⟩
    ∧ ([Ev.append "x", Ev.callback "x"] : List Ev) ≠ [Ev.callback "x", Ev.append "x"] :=
  ⟨rfl, by decide⟩

/-- C7 amended: when a callback is supplied, lines reach the callback in
arrival order, but each line is appended to the accumulated buffer first
and handed to the callback immediately afterwards: the loop's trace is
exactly the append-then-callback pairing of its output lines, and both
the callback and the buffer see exactly those lines in order. -/
theorem c7_amended (b : ProcBehavior) :
    (runLoop true b.eofAt 0 [] [] b.timedLines).trace
      = pairTrace ((runLoop true b.eofAt 0 [] [] b.timedLines).outLines)
    ∧ sinkLines ((runLoop true b.eofAt 0 [] [] b.timedLines).trace)
      = (runLoop true b.eofAt 0 [] [] b.timedLines).outLines
    ∧ bufLines ((runLoop true b.eofAt 0 [] [] b.timedLines).trace)
      = (runLoop true b.eofAt 0 [] [] b.timedLines).outLines := by
  have h := runLoop_trace_pair b.eofAt b.timedLines 0 []
  rw [show pairTrace [] = [] from rfl] at h
  exact ⟨h, by rw [h, sinkLines_pairTrace], by rw [h, bufLines_pairTrace]⟩

/-- C8: `LetsGoProcess.run` writes the command followed by a line
terminator and returns the reply described by the spec: lines are read
until the sentinel line reappears, a leading "sentinel + separator"
prelude is stripped, all other lines are kept verbatim, and the
accumulated lines are joined and trimmed. -/
theorem c8_send_protocol (cmd : String) (ls : List String) :
    LetsGoProcess.run cmd (PipeState.started ls)
      = Except.ok ⟨cmd ++ "\n", sendReplySpec ls⟩ := by
  simp only [LetsGoProcess.run, sendReplySpec]
  rw [readReply_takeWhile ls []]
  simp

/-- C9: on an empty command string the runner spawns the host shell,
which writes nothing and exits with status 0 at once, so `run_command`
returns empty output without killing anything; and `run_command` is a
total function — it returns a result on every process behaviour, so the
call terminates. -/
theorem c9_empty_command (useColor : Bool) (cs : ColorScheme) (hasCb : Bool) :
    run_command useColor cs hasCb (Spawn.ok emptyShellBehavior) = Except.ok ⟨"", [], false⟩
    ∧ ∀ sp : Spawn, ∃ r, run_command useColor cs hasCb sp = Except.ok r :=
  ⟨rfl, fun sp => run_command_total useColor cs hasCb sp⟩

/-- C10 counterexample: the claim says every invalid pattern makes
`summarize` and `search_history` return "invalid pattern".  When the
history file is missing, both return "no history" before the pattern is
ever compiled, even for an invalid pattern. -/
theorem c10_counterexample :
    search_history none none = "no history"
    ∧ summarize true none false [] (some none) 5 = "no history"
    ∧ ("no history" : String) ≠ "invalid pattern" :=
  ⟨rfl, rfl, by decide⟩

/-- C10 amended: when the searched source is present (the history file
exists, or the log directory exists in log mode), an invalid pattern
makes `summarize` and `search_history` return "invalid pattern" (no
exception escapes: `re.error` is caught); when the source is missing, the
"no history" / "no logs" answer takes precedence over the pattern
check. -/
theorem c10_amended (fl logLines : List String) (limit : Nat) :
    search_history (some fl) none = "invalid pattern"
    ∧ summarize true (some fl) true logLines (some none) limit = "invalid pattern"
    ∧ summarize false (some fl) true logLines (some none) limit = "invalid pattern"
    ∧ summarize true none true logLines (some none) limit = "no history"
    ∧ summarize false (some fl) false logLines (some none) limit = "no logs" :=
  ⟨rfl, rfl, rfl, rfl, rfl⟩

end Arianna
